import Mathlib

/-!
Shallow embedding of `libs/vr/libeds/device_metrics.cpp` (Android VR
device-metrics configuration loading).

Modelling decisions:
* C `float`/`double` values are modelled as exact rationals (`ℚ`); the
  claims under verification concern parsing structure, arity checks,
  branch selection and exact arithmetic identities, not IEEE rounding.
* Property strings are `List Char`; the system property store is a total
  map from the nine property keys to strings, with the empty string
  standing for an unset property (`property_get` with default `""`).
* `std::strtof` (C locale) is modelled on its decimal forms:
  optional leading whitespace, optional sign, decimal mantissa with
  optional fraction, optional decimal exponent.  The hexadecimal,
  infinity and NaN forms are not modelled; none of the configuration
  defaults or claims involve them.  The model returns the converted
  value together with the unconsumed suffix (the `endptr` tail), and
  `none` when no conversion is performed (`endptr == str`).
* `shared_ptr` identity is modelled by tagging each allocation made
  inside a factory call with a per-call allocation index, so that
  pointer (reference) equality of two channel slots is equality of the
  tags.
-/

/-- C locale `isspace`: the six standard whitespace characters. -/
def isSpaceC (c : Char) : Bool :=
  c = ' ' || c = '\t' || c = '\n' || c = '\x0b' || c = '\x0c' || c = '\r'

/-- Value of a list of decimal digit characters read most-significant first. -/
def digitsToNat (ds : List Char) : ℕ :=
  ds.foldl (fun a c => 10 * a + (c.toNat - 48)) 0

/-- Value of a list of digit characters read as a decimal fraction `.d₁d₂…`. -/
def fracVal (ds : List Char) : ℚ :=
  (digitsToNat ds : ℚ) / 10 ^ ds.length

/-- Optional sign at the head of the subject sequence. -/
def parseSign (s : List Char) : ℚ × List Char :=
  match s with
  | [] => (1, [])
  | c :: r =>
    if c = '+' then (1, r)
    else if c = '-' then (-1, r)
    else (1, c :: r)

/-- Decimal mantissa: `digits`, `digits.digits`, `digits.` or `.digits`;
fails (no conversion) when no mantissa digit is present. -/
def parseMantissa (s : List Char) : Option (ℚ × List Char) :=
  let ip := s.takeWhile Char.isDigit
  let r1 := s.dropWhile Char.isDigit
  match r1 with
  | c :: r2 =>
    if c = '.' then
      let fp := r2.takeWhile Char.isDigit
      let r3 := r2.dropWhile Char.isDigit
      if ip = [] ∧ fp = [] then none
      else some ((digitsToNat ip : ℚ) + fracVal fp, r3)
    else if ip = [] then none
    else some ((digitsToNat ip : ℚ), c :: r2)
  | [] =>
    if ip = [] then none
    else some ((digitsToNat ip : ℚ), [])

/-- Optional exponent part `e[±]digits`; if the digits are missing the
whole exponent part is left unconsumed (as `strtof` does: the subject
sequence ends with the mantissa). Returns the exponent and the rest. -/
def parseExpPart (s : List Char) : ℤ × List Char :=
  match s with
  | c :: rest =>
    if c = 'e' || c = 'E' then
      match rest with
      | c2 :: rest2 =>
        if c2 = '+' then
          let ds := rest2.takeWhile Char.isDigit
          if ds = [] then (0, s)
          else ((digitsToNat ds : ℤ), rest2.dropWhile Char.isDigit)
        else if c2 = '-' then
          let ds := rest2.takeWhile Char.isDigit
          if ds = [] then (0, s)
          else (-(digitsToNat ds : ℤ), rest2.dropWhile Char.isDigit)
        else
          let ds := rest.takeWhile Char.isDigit
          if ds = [] then (0, s)
          else ((digitsToNat ds : ℤ), rest.dropWhile Char.isDigit)
      | [] => (0, s)
    else (0, s)
  | [] => (0, [])

/-- Model of C `std::strtof` restricted to its decimal forms: returns the
converted value and the tail starting at `endptr`, or `none` when no
conversion is performed. -/
def strtofParse (s : List Char) : Option (ℚ × List Char) :=
  let sg := parseSign (s.dropWhile isSpaceC)
  match parseMantissa sg.2 with
  | none => none
  | some (m, r) =>
    let ep := parseExpPart r
    some (sg.1 * m * (10 : ℚ) ^ ep.1, ep.2)

/-- `StringToFloat(str, &result)` from `device_metrics.cpp`: calls
`strtof`; succeeds iff `endptr != str`, i.e. iff a conversion was
performed, in which case `result` holds the converted value. -/
def stringToFloat (s : List Char) : Option ℚ :=
  (strtofParse s).map Prod.fst

/-- `SplitString(string_to_split, ',')` from `device_metrics.cpp`:
repeated `std::getline` on a stringstream with delimiter `','`.
`getline` fails (extracting nothing) exactly at end of input, so the
empty string yields no tokens and a trailing empty token after a final
delimiter is dropped, while interior empty tokens are kept. -/
def splitString : List Char → List (List Char)
  | [] => []
  | c :: cs =>
    if c = ',' then [] :: splitString cs
    else
      match splitString cs with
      | [] => [[c]]
      | t :: ts => (c :: t) :: ts

/-- The body of the parsing loop in the vector `GetProperty` overload:
`if (StringToFloat(value.c_str(), &result)) results.push_back(result)`. -/
def pushParsed (acc : List ℚ) (value : List Char) : List ℚ :=
  match stringToFloat value with
  | some r => acc ++ [r]
  | none => acc

/-- The vector overload `GetProperty(name, default_values)`: split the
property text on commas, parse each token with `StringToFloat`,
appending successes in order (`push_back` loop); return the default
vector when no token parsed. -/
def getPropertyVec (raw : List Char) (default_values : List ℚ) : List ℚ :=
  let results := (splitString raw).foldl pushParsed []
  if results.isEmpty then default_values else results

/-- The scalar overload `GetProperty(name, default_value)`: parse the
whole property text with `StringToFloat`; return the default on failure. -/
def getPropertyScalar (raw : List Char) (default_value : ℚ) : ℚ :=
  match stringToFloat raw with
  | some r => r
  | none => default_value

/-- The successfully parsed tokens of a property string, in order of
appearance (specification-side description of the `GetProperty` loop). -/
def parsedTokens (raw : List Char) : List ℚ :=
  (splitString raw).filterMap stringToFloat

unseal Rat.add Rat.mul Rat.inv Rat.sub Rat.ofScientific in
example : stringToFloat "1.5abc".toList = some (3/2) := by decide
example : stringToFloat "".toList = none := by decide
example : stringToFloat "abc".toList = none := by decide
example : splitString "a,,b,".toList = ["a".toList, [], "b".toList] := by decide
unseal Rat.add Rat.mul Rat.inv Rat.sub Rat.ofScientific in
example : getPropertyVec "1,x,2".toList [9] = [1, 2] := by decide
example : getPropertyVec "x,y".toList [9] = [9] := by decide
unseal Rat.add Rat.mul Rat.inv Rat.sub Rat.ofScientific in
example : stringToFloat "-2.5e1".toList = some (-25) := by decide
unseal Rat.add Rat.mul Rat.inv Rat.sub Rat.ofScientific in
example : stringToFloat "1e".toList = some 1 := by decide
unseal Rat.add Rat.mul Rat.inv Rat.sub Rat.ofScientific in
example : stringToFloat "  .5".toList = some (1/2) := by decide
example : stringToFloat ".".toList = none := by decide

/-! ## Property keys and the property store -/

/-- The nine `persist.dvr.*` property keys read by this translation unit. -/
inductive PropKey
  | rgbPolyOffset   -- kRGBPolynomialOffset = "persist.dvr.rgb_poly_offset"
  | rPoly           -- kRPolynomial = "persist.dvr.r_poly"
  | gPoly           -- kGPolynomial = "persist.dvr.g_poly"
  | bPoly           -- kBPolynomial = "persist.dvr.b_poly"
  | lensDistance    -- kLensDistance = "persist.dvr.lens_distance"
  | displayGap      -- kDisplayGap = "persist.dvr.display_gap"
  | vEyeToDisplay   -- kVEyeToDisplay = "persist.dvr.v_eye_to_display"
  | fovIOBT         -- kFovIOBT = "persist.dvr.fov_iobt"
  | screenSize      -- kScreenSize = "persist.dvr.screen_size"
  deriving DecidableEq

/-- The system property store: `property_get(name, prop, "")` reads the
value of a key, the empty string standing for an unset property. -/
def Env := PropKey → List Char

/-- A store with every property unset. -/
def emptyEnv : Env := fun _ => []

/-- The store with key `k` set to `v` and all other keys unchanged. -/
def envUpdate (env : Env) (k : PropKey) (v : List Char) : Env :=
  fun k2 => if k2 = k then v else env k2

/-! ## Derived metric getters -/

/-- `GetInterLensDistance()`: scalar property `persist.dvr.lens_distance`
with default `0.064f`. -/
def getInterLensDistance (env : Env) : ℚ :=
  getPropertyScalar (env .lensDistance) 0.064

/-- `GetDisplayGap()`: scalar property `persist.dvr.display_gap` with
default `0.0f`. -/
def getDisplayGap (env : Env) : ℚ :=
  getPropertyScalar (env .displayGap) 0.0

/-- `GetVEyeToDisplay()`: scalar property `persist.dvr.v_eye_to_display`
with default `0.035f`. -/
def getVEyeToDisplay (env : Env) : ℚ :=
  getPropertyScalar (env .vEyeToDisplay) 0.035

/-- `default_size` in `GetDisplaySize()`. -/
def default_size : List ℚ := [0.0742177, 0.131943]

/-- `GetDisplaySize()`: reads `persist.dvr.screen_size` as a vector with
default `default_size`, then — exactly as written in the source —
replaces the result by `default_size` whenever `sizes.size() != 0`, and
returns components 0 and 1. -/
def getDisplaySize (env : Env) : ℚ × ℚ :=
  let sizes := getPropertyVec (env .screenSize) default_size
  let sizes := if sizes.length ≠ 0 then default_size else sizes
  (sizes.getD 0 0, sizes.getD 1 0)

/-- The `M_PI` constant of `<math.h>` used in `GetMaxFOVs`. -/
def m_pi : ℚ := 3.14159265358979323846

/-- `defaults` in `GetMaxFOVs()`. -/
def fov_defaults : List ℚ := [43.7, 47.8, 54.2, 54.2]

/-- `GetMaxFOVs()`: reads `persist.dvr.fov_iobt` as a vector with default
`fov_defaults`, replaces it by `fov_defaults` when its size is not 4,
then converts every component by `value * M_PI / 180`. -/
def getMaxFOVs (env : Env) : List ℚ :=
  let fovs := getPropertyVec (env .fovIOBT) fov_defaults
  let fovs := if fovs.length ≠ 4 then fov_defaults else fovs
  fovs.map (fun value => value * m_pi / 180)

/-! ## The metrics value objects

The headers `head_mount_metrics.h` and `display_metrics.h` are not part
of the provided source; the structures below record positionally the
twelve constructor arguments of `HeadMountMetrics` and the five of
`DisplayMetrics` exactly as passed in `device_metrics.cpp`. -/

/-- `HeadMountMetrics::VerticalAlignment`; only `kCenter` is used here. -/
inductive VerticalAlignment
  | kBottom
  | kCenter
  | kTop
  deriving DecidableEq

/-- `HeadMountMetrics::EyeOrientation`; only `kCCW0Degrees` is used here. -/
inductive EyeOrientation
  | kCCW0Degrees
  | kCCW90Degrees
  | kCCW180Degrees
  | kCCW270Degrees
  deriving DecidableEq

/-- `DisplayOrientation`. -/
inductive DisplayOrientation
  | kPortrait
  | kLandscape
  deriving DecidableEq

/-- `FieldOfView(a, b, c, d)`: four angles, stored positionally in
constructor-argument order. -/
structure FieldOfView where
  f0 : ℚ
  f1 : ℚ
  f2 : ℚ
  f3 : ℚ
  deriving DecidableEq

/-- The concrete distortion object held behind a
`shared_ptr<ColorChannelDistortion>`: a `PolynomialRadialDistortion`
built from one offset and a coefficient vector, or an
`IdentityDistortion`. -/
inductive DistortionKind
  | polynomial (offset : ℚ) (coefficients : List ℚ)
  | identity
  deriving DecidableEq

/-- A `shared_ptr<ColorChannelDistortion>`: the `alloc` tag is the index
of the allocation (`new` / `make_shared`) inside the factory call that
created the object, so two slots hold the same instance (pointer
equality) iff their `DistortionPtr`s are equal. -/
structure DistortionPtr where
  alloc : ℕ
  kind : DistortionKind
  deriving DecidableEq

/-- The coefficient vector of a polynomial distortion (empty for the
identity distortion). -/
def DistortionPtr.coefficients (p : DistortionPtr) : List ℚ :=
  match p.kind with
  | .polynomial _ cs => cs
  | .identity => []

/-- The twelve constructor arguments of `HeadMountMetrics`, in order. -/
structure HeadMountMetrics where
  inter_lens_distance : ℚ
  left_v_eye_to_display : ℚ
  right_v_eye_to_display : ℚ
  vertical_alignment : VerticalAlignment
  left_fov : FieldOfView
  right_fov : FieldOfView
  distortion_r : DistortionPtr
  distortion_g : DistortionPtr
  distortion_b : DistortionPtr
  left_eye_orientation : EyeOrientation
  right_eye_orientation : EyeOrientation
  tray_to_lens_distance : ℚ
  deriving DecidableEq

/-- The five constructor arguments of `DisplayMetrics`, in order. -/
structure DisplayMetrics where
  screen_size : ℤ × ℤ
  meters_per_pixel : ℚ × ℚ
  border_size : ℚ
  frame_period_ms : ℚ
  orientation : DisplayOrientation
  deriving DecidableEq

/-- `kDefaultVerticalAlignment = HeadMountMetrics::kCenter`. -/
def kDefaultVerticalAlignment : VerticalAlignment := .kCenter

/-- `kScreenBorderSize = 0.004f` (meters). -/
def kScreenBorderSize : ℚ := 0.004

/-- `kScreenRefreshRate = 60.0f`. -/
def kScreenRefreshRate : ℚ := 60.0

/-- `kDisplayOrientation = DisplayOrientation::kPortrait`. -/
def kDisplayOrientation : DisplayOrientation := .kPortrait

/-! ## Factories -/

/-- `default_r` in `CreateHeadMountMetrics`. -/
def default_r : List ℚ :=
  [-4.08519004, 34.70282075, -67.37781249, 56.97304235,
   -23.35768685, 4.7199597, 0.63198082]

/-- `default_g` in `CreateHeadMountMetrics`. -/
def default_g : List ℚ :=
  [4.43078318, 3.47806617, -20.58017398, 20.85880414,
   -8.4046504, 1.61284685, 0.8881761]

/-- `default_b` in `CreateHeadMountMetrics`. -/
def default_b : List ℚ :=
  [12.04141265, -21.98112491, 14.06758389, -3.15245629,
   0.36549102, 0.05252705, 0.99844279]

/-- `default_offsets` in `CreateHeadMountMetrics`. -/
def default_offsets : List ℚ :=
  [0.20971645238, 0.15189450000, 1.00096958278]

/-- The `poly_offsets` value of `CreateHeadMountMetrics` after its
post-hoc arity check: the vector read of `persist.dvr.rgb_poly_offset`
replaced by `default_offsets` when its size is not 3. -/
def selectPolyOffsets (env : Env) : List ℚ :=
  let poly_offsets := getPropertyVec (env .rgbPolyOffset) default_offsets
  if poly_offsets.length ≠ 3 then default_offsets else poly_offsets

/-- `CreateHeadMountMetrics(l_fov, r_fov)`: reads the offset and the
three per-channel polynomial properties, arity-checks only the offsets,
allocates three distinct `PolynomialRadialDistortion` objects
(allocation indices 0, 1, 2), and assembles the twelve constructor
arguments.  The property store is passed explicitly in place of the
global system property area. -/
def createHeadMountMetrics (env : Env) (l_fov r_fov : FieldOfView) :
    HeadMountMetrics :=
  let poly_offsets := selectPolyOffsets env
  let poly_r := getPropertyVec (env .rPoly) default_r
  let poly_g := getPropertyVec (env .gPoly) default_g
  let poly_b := getPropertyVec (env .bPoly) default_b
  let distortion_r : DistortionPtr :=
    ⟨0, .polynomial (poly_offsets.getD 0 0) poly_r⟩
  let distortion_g : DistortionPtr :=
    ⟨1, .polynomial (poly_offsets.getD 1 0) poly_g⟩
  let distortion_b : DistortionPtr :=
    ⟨2, .polynomial (poly_offsets.getD 2 0) poly_b⟩
  { inter_lens_distance := getInterLensDistance env
    left_v_eye_to_display := getVEyeToDisplay env
    right_v_eye_to_display := getVEyeToDisplay env
    vertical_alignment := kDefaultVerticalAlignment
    left_fov := l_fov
    right_fov := r_fov
    distortion_r := distortion_r
    distortion_g := distortion_g
    distortion_b := distortion_b
    left_eye_orientation := .kCCW0Degrees
    right_eye_orientation := .kCCW0Degrees
    tray_to_lens_distance := (getInterLensDistance env - getDisplayGap env) / 2 }

/-- The zero-argument overload `CreateHeadMountMetrics()`: builds the
per-eye fields of view from `GetMaxFOVs()` (swapping the first two
components between eyes) and delegates to the two-argument overload. -/
def createHeadMountMetricsAuto (env : Env) : HeadMountMetrics :=
  let fovs := getMaxFOVs env
  let l_fov : FieldOfView :=
    ⟨fovs.getD 1 0, fovs.getD 0 0, fovs.getD 2 0, fovs.getD 3 0⟩
  let r_fov : FieldOfView :=
    ⟨fovs.getD 0 0, fovs.getD 1 0, fovs.getD 2 0, fovs.getD 3 0⟩
  createHeadMountMetrics env l_fov r_fov

/-- `CreateDisplayMetrics(screen_size)`: converts `GetDisplaySize()` to
per-axis meters per pixel and packages the fixed border size, frame
period `1000 / kScreenRefreshRate` and portrait orientation. -/
def createDisplayMetrics (env : Env) (screen_size : ℤ × ℤ) :
    DisplayMetrics :=
  let size_in_meters := getDisplaySize env
  let meters_per_pixel :=
    (size_in_meters.1 / (screen_size.1 : ℚ),
     size_in_meters.2 / (screen_size.2 : ℚ))
  { screen_size := screen_size
    meters_per_pixel := meters_per_pixel
    border_size := kScreenBorderSize
    frame_period_ms := 1000.0 / kScreenRefreshRate
    orientation := kDisplayOrientation }

/-- `CreateUndistortedHeadMountMetrics(l_fov, r_fov)`: a single
`IdentityDistortion` allocation (index 0) shared by all three channel
slots. -/
def createUndistortedHeadMountMetrics (env : Env)
    (l_fov r_fov : FieldOfView) : HeadMountMetrics :=
  let distortion_all : DistortionPtr := ⟨0, .identity⟩
  { inter_lens_distance := getInterLensDistance env
    left_v_eye_to_display := getVEyeToDisplay env
    right_v_eye_to_display := getVEyeToDisplay env
    vertical_alignment := kDefaultVerticalAlignment
    left_fov := l_fov
    right_fov := r_fov
    distortion_r := distortion_all
    distortion_g := distortion_all
    distortion_b := distortion_all
    left_eye_orientation := .kCCW0Degrees
    right_eye_orientation := .kCCW0Degrees
    tray_to_lens_distance := (getInterLensDistance env - getDisplayGap env) / 2 }

/-- The zero-argument overload `CreateUndistortedHeadMountMetrics()`:
same per-eye field-of-view construction as the head-mount factory,
delegating to the two-argument undistorted overload. -/
def createUndistortedHeadMountMetricsAuto (env : Env) : HeadMountMetrics :=
  let fovs := getMaxFOVs env
  let l_fov : FieldOfView :=
    ⟨fovs.getD 1 0, fovs.getD 0 0, fovs.getD 2 0, fovs.getD 3 0⟩
  let r_fov : FieldOfView :=
    ⟨fovs.getD 0 0, fovs.getD 1 0, fovs.getD 2 0, fovs.getD 3 0⟩
  createUndistortedHeadMountMetrics env l_fov r_fov

/-! ## Lemmas about the property readers -/

/-- The `push_back` loop of the vector `GetProperty` overload collects
exactly the successfully parsed values, in order. -/
theorem foldl_push_eq_filterMap (l : List (List Char)) :
    ∀ acc : List ℚ,
      l.foldl pushParsed acc = acc ++ l.filterMap stringToFloat := by
  induction l with
  | nil => intro acc; simp
  | cons v vs ih =>
    intro acc
    cases hf : stringToFloat v <;>
      simp [List.foldl_cons, List.filterMap_cons, hf, ih, pushParsed]

/-- Closed form of the vector `GetProperty` overload. -/
theorem getPropertyVec_eq (raw : List Char) (d : List ℚ) :
    getPropertyVec raw d =
      if parsedTokens raw = [] then d else parsedTokens raw := by
  simp only [getPropertyVec, parsedTokens, List.isEmpty_iff]
  rw [foldl_push_eq_filterMap]
  simp only [List.nil_append]

/-- The vector `GetProperty` overload never returns the empty vector when
the supplied default is nonempty. -/
theorem getPropertyVec_ne_nil (raw : List Char) (d : List ℚ) (hd : d ≠ []) :
    getPropertyVec raw d ≠ [] := by
  rw [getPropertyVec_eq]
  split
  · exact hd
  · next h => exact h

/-- `GetDisplaySize` always returns the compiled-in default size: the
vector read never returns an empty vector, so the `sizes.size() != 0`
fallback condition always fires. -/
theorem getDisplaySize_eq (env : Env) :
    getDisplaySize env = (default_size.getD 0 0, default_size.getD 1 0) := by
  unfold getDisplaySize
  have h := getPropertyVec_ne_nil (env .screenSize) default_size
    (by simp [default_size])
  have h0 : (getPropertyVec (env .screenSize) default_size).length ≠ 0 :=
    fun hc => h (List.length_eq_zero.mp hc)
  simp only [if_pos h0]

/-- The offsets vector selected by `CreateHeadMountMetrics` always has
exactly 3 components. -/
theorem selectPolyOffsets_length (env : Env) :
    (selectPolyOffsets env).length = 3 := by
  simp only [selectPolyOffsets]
  split
  · simp [default_offsets]
  · next h => exact not_not.mp h

/-- Closed form of `GetMaxFOVs`: the parsed token list when it has
exactly 4 entries, the default vector otherwise, converted to radians. -/
theorem getMaxFOVs_eq (env : Env) :
    getMaxFOVs env =
      (if (parsedTokens (env .fovIOBT)).length = 4
        then parsedTokens (env .fovIOBT)
        else fov_defaults).map (fun value => value * m_pi / 180) := by
  unfold getMaxFOVs
  rw [getPropertyVec_eq]
  by_cases h : parsedTokens (env .fovIOBT) = []
  · rw [if_pos h]
    simp [h, fov_defaults]
  · rw [if_neg h]
    by_cases h4 : (parsedTokens (env .fovIOBT)).length = 4 <;> simp [h4]

/-- `GetMaxFOVs` always returns 4 components. -/
theorem getMaxFOVs_length (env : Env) : (getMaxFOVs env).length = 4 := by
  rw [getMaxFOVs_eq]
  split <;> simp_all [fov_defaults]

/-! ## Claims -/

unseal Rat.add Rat.mul Rat.inv Rat.sub Rat.ofScientific in
/-- C1: the claim states that a well-formed 2-component `screen_size`
value is used by `GetDisplaySize`.  The code does the opposite: on the
input "0.1,0.2", which parses to exactly 2 components, the fallback
branch `if (sizes.size() != 0) sizes = default_size;` fires and the
configured components are discarded in favour of the compiled-in
default. -/
theorem claim_C1_divergence :
    parsedTokens "0.1,0.2".toList = [1/10, 2/10] ∧
    (parsedTokens "0.1,0.2".toList).length = 2 ∧
    getDisplaySize (envUpdate emptyEnv .screenSize "0.1,0.2".toList) =
      (0.0742177, 0.131943) ∧
    (0.0742177 : ℚ) ≠ 1/10 := by decide

/-- C2: for every property store, `GetDisplaySize` returns the
compiled-in default physical size; the configured value is never used
because the vector property reader never returns an empty vector, so
the fallback condition `sizes.size() != 0` always holds. -/
theorem claim_C2 (env : Env) :
    getDisplaySize env = (0.0742177, 0.131943) ∧
    ∀ raw : List Char, getPropertyVec raw default_size ≠ [] := by
  constructor
  · rw [getDisplaySize_eq]; rfl
  · intro raw
    exact getPropertyVec_ne_nil raw default_size (by simp [default_size])

unseal Rat.add Rat.mul Rat.inv Rat.sub Rat.ofScientific in
/-- C3 (counterexample): "1.5abc" has trailing non-numeric data after a
numeric prefix, yet the scalar property reader parses it successfully
and returns 1.5 instead of the caller-supplied default 0.064. -/
theorem claim_C3_counterexample :
    stringToFloat "1.5abc".toList = some (3/2) ∧
    getPropertyScalar "1.5abc".toList 0.064 = 3/2 ∧
    (3/2 : ℚ) ≠ 0.064 := by decide

/-- C3 (amended): the scalar property reader succeeds whenever `strtof`
converts a nonempty numeric prefix, returning that prefix's value and
ignoring any trailing data; only a string with no convertible prefix
yields the caller-supplied default. -/
theorem claim_C3_amended (s : List Char) (d : ℚ) :
    (∀ x rest, strtofParse s = some (x, rest) → getPropertyScalar s d = x) ∧
    (strtofParse s = none → getPropertyScalar s d = d) := by
  constructor
  · intro x rest h
    simp [getPropertyScalar, stringToFloat, h]
  · intro h
    simp [getPropertyScalar, stringToFloat, h]

unseal Rat.add Rat.mul Rat.inv Rat.sub Rat.ofScientific in
/-- C3 (witness): the amended statement applied to "1.5abc", whose
numeric prefix converts to 1.5 with unconsumed tail "abc". -/
theorem claim_C3_witness :
    strtofParse "1.5abc".toList = some (3/2, "abc".toList) ∧
    getPropertyScalar "1.5abc".toList 0.064 = 3/2 :=
  ⟨by decide,
   (claim_C3_amended "1.5abc".toList 0.064).1 (3/2) "abc".toList (by decide)⟩

unseal Rat.add Rat.mul Rat.inv Rat.sub Rat.ofScientific in
/-- C4 (counterexample): the red-channel polynomial property "1,x" is
partially parseable (token "1" parses, token "x" does not), and the
factory stores the partially applied vector [1] — which neither has the
default's arity 7 nor equals the compiled-in default vector. -/
theorem claim_C4_counterexample :
    stringToFloat "1".toList = some 1 ∧
    stringToFloat "x".toList = none ∧
    (createHeadMountMetrics (envUpdate emptyEnv .rPoly "1,x".toList)
        ⟨0, 0, 0, 0⟩ ⟨0, 0, 0, 0⟩).distortion_r.coefficients = [1] ∧
    [(1 : ℚ)] ≠ default_r ∧
    [(1 : ℚ)].length ≠ 7 := by decide

/-- C4 (amended): the arity-checked vectors never partially apply — the
offset selection always has 3 components, the field-of-view selection
always 4, and the screen size is always the compiled-in default — but
the R/G/B polynomial coefficient vectors are not arity-checked: each
equals the list of successfully parsed tokens whenever at least one
token parses, and the compiled-in default only otherwise. -/
theorem claim_C4_amended (env : Env) (l_fov r_fov : FieldOfView) :
    (selectPolyOffsets env).length = 3 ∧
    (getMaxFOVs env).length = 4 ∧
    getDisplaySize env = (0.0742177, 0.131943) ∧
    (createHeadMountMetrics env l_fov r_fov).distortion_r.coefficients =
      (if parsedTokens (env .rPoly) = [] then default_r
       else parsedTokens (env .rPoly)) ∧
    (createHeadMountMetrics env l_fov r_fov).distortion_g.coefficients =
      (if parsedTokens (env .gPoly) = [] then default_g
       else parsedTokens (env .gPoly)) ∧
    (createHeadMountMetrics env l_fov r_fov).distortion_b.coefficients =
      (if parsedTokens (env .bPoly) = [] then default_b
       else parsedTokens (env .bPoly)) := by
  refine ⟨selectPolyOffsets_length env, getMaxFOVs_length env, ?_, ?_, ?_, ?_⟩
  · rw [getDisplaySize_eq]; rfl
  · simp [createHeadMountMetrics, DistortionPtr.coefficients, getPropertyVec_eq]
  · simp [createHeadMountMetrics, DistortionPtr.coefficients, getPropertyVec_eq]
  · simp [createHeadMountMetrics, DistortionPtr.coefficients, getPropertyVec_eq]

/-- C5: the vector property reader returns exactly the successfully
parsed token values in order of appearance, except that it returns the
caller-supplied default when no token parses. -/
theorem claim_C5 (raw : List Char) (d : List ℚ) :
    (parsedTokens raw = [] ∧ getPropertyVec raw d = d) ∨
    (parsedTokens raw ≠ [] ∧ getPropertyVec raw d = parsedTokens raw) := by
  rw [getPropertyVec_eq]
  by_cases h : parsedTokens raw = [] <;> simp [h]

/-- C6: the undistorted factory stores one and the same identity
distortion instance in all three channel slots, while the standard
factory stores three pairwise-distinct polynomial distortion instances
(distinct allocations). -/
theorem claim_C6 (env : Env) (l_fov r_fov : FieldOfView) :
    ((createUndistortedHeadMountMetrics env l_fov r_fov).distortion_r =
       (createUndistortedHeadMountMetrics env l_fov r_fov).distortion_g ∧
     (createUndistortedHeadMountMetrics env l_fov r_fov).distortion_g =
       (createUndistortedHeadMountMetrics env l_fov r_fov).distortion_b) ∧
    ((createHeadMountMetrics env l_fov r_fov).distortion_r ≠
       (createHeadMountMetrics env l_fov r_fov).distortion_g ∧
     (createHeadMountMetrics env l_fov r_fov).distortion_r ≠
       (createHeadMountMetrics env l_fov r_fov).distortion_b ∧
     (createHeadMountMetrics env l_fov r_fov).distortion_g ≠
       (createHeadMountMetrics env l_fov r_fov).distortion_b) := by
  refine ⟨⟨rfl, rfl⟩, ?_, ?_, ?_⟩ <;> simp [createHeadMountMetrics]

/-- C7: `GetMaxFOVs` returns a 4-component vector — the configured
`fov_iobt` value when it has exactly 4 parsed components, the default
as a whole otherwise — with every component multiplied by `M_PI / 180`;
with no property set the result is the default {43.7, 47.8, 54.2, 54.2}
so converted. -/
theorem claim_C7 (env : Env) :
    (getMaxFOVs env).length = 4 ∧
    getMaxFOVs env =
      (if (parsedTokens (env .fovIOBT)).length = 4
        then parsedTokens (env .fovIOBT)
        else fov_defaults).map (fun value => value * m_pi / 180) ∧
    getMaxFOVs emptyEnv = fov_defaults.map (fun value => value * m_pi / 180) :=
  ⟨getMaxFOVs_length env, getMaxFOVs_eq env, by rw [getMaxFOVs_eq]; rfl⟩

/-- C8: when both the inter-lens distance and the display-gap properties
are well-formed scalars D and G, both head-mount factories store the
tray-to-lens offset (D − G) / 2. -/
theorem claim_C8 (env : Env) (l_fov r_fov : FieldOfView) (D G : ℚ)
    (hD : stringToFloat (env .lensDistance) = some D)
    (hG : stringToFloat (env .displayGap) = some G) :
    (createHeadMountMetrics env l_fov r_fov).tray_to_lens_distance =
      (D - G) / 2 ∧
    (createUndistortedHeadMountMetrics env l_fov r_fov).tray_to_lens_distance =
      (D - G) / 2 := by
  constructor <;>
    simp [createHeadMountMetrics, createUndistortedHeadMountMetrics,
      getInterLensDistance, getDisplayGap, getPropertyScalar, hD, hG]

unseal Rat.add Rat.mul Rat.inv Rat.sub Rat.ofScientific in
/-- C8 (witness): lens distance 0.07 and display gap 0.01 give tray
offset (0.07 − 0.01) / 2. -/
theorem claim_C8_witness :
    stringToFloat "0.07".toList = some (7/100) ∧
    stringToFloat "0.01".toList = some (1/100) ∧
    (createHeadMountMetrics
        (envUpdate (envUpdate emptyEnv .lensDistance "0.07".toList)
          .displayGap "0.01".toList)
        ⟨0, 0, 0, 0⟩ ⟨0, 0, 0, 0⟩).tray_to_lens_distance =
      (7/100 - 1/100) / 2 :=
  ⟨by decide, by decide,
   (claim_C8 _ ⟨0, 0, 0, 0⟩ ⟨0, 0, 0, 0⟩ (7/100) (1/100)
      (by decide) (by decide)).1⟩

/-- C9: for nonzero pixel resolution (w, h), `CreateDisplayMetrics`
returns the physical screen size divided componentwise by (w, h) as
meters-per-pixel, border size 0.004 m, frame period 1000/60 ms and
portrait orientation; for a 1000×1000 screen with the default physical
size the meters-per-pixel is {7.42177e-5, 1.31943e-4}. -/
theorem claim_C9 (env : Env) (w h : ℤ) (hw : w ≠ 0) (hh : h ≠ 0) :
    createDisplayMetrics env (w, h) =
      { screen_size := (w, h)
        meters_per_pixel := ((getDisplaySize env).1 / (w : ℚ),
                             (getDisplaySize env).2 / (h : ℚ))
        border_size := 0.004
        frame_period_ms := 1000 / 60
        orientation := .kPortrait } ∧
    (createDisplayMetrics emptyEnv (1000, 1000)).meters_per_pixel =
      (0.0000742177, 0.000131943) := by
  constructor
  · simp only [createDisplayMetrics, kScreenBorderSize, kScreenRefreshRate,
      kDisplayOrientation, DisplayMetrics.mk.injEq]
    norm_num
  · simp only [createDisplayMetrics, getDisplaySize_eq]
    norm_num [default_size]

unseal Rat.add Rat.mul Rat.inv Rat.sub Rat.ofScientific in
/-- C9 (witness): the componentwise form applied at a 1000×1000 screen
with no property set. -/
theorem claim_C9_witness :
    (1000 : ℤ) ≠ 0 ∧
    createDisplayMetrics emptyEnv (1000, 1000) =
      { screen_size := ((1000 : ℤ), (1000 : ℤ))
        meters_per_pixel := ((getDisplaySize emptyEnv).1 / ((1000 : ℤ) : ℚ),
                             (getDisplaySize emptyEnv).2 / ((1000 : ℤ) : ℚ))
        border_size := 0.004
        frame_period_ms := 1000 / 60
        orientation := .kPortrait } :=
  ⟨by decide,
   (claim_C9 emptyEnv 1000 1000 (by decide) (by decide)).1⟩

/-! ## A fully malformed property value is indistinguishable from an
absent one.

The key step is that when every comma-separated token of a string fails
to parse, the whole string also fails the scalar parse: the subject
sequence `strtof` would convert never contains a comma, so a successful
whole-string conversion would make the first token convert as well. -/

/-- Skipping leading whitespace distributes over appending a
comma-started tail, since ',' is not whitespace. -/
theorem dropWhile_space_append (t r : List Char) :
    (t ++ ',' :: r).dropWhile isSpaceC = t.dropWhile isSpaceC ++ ',' :: r := by
  induction t with
  | nil => rfl
  | cons c cs ih =>
    by_cases hc : isSpaceC c <;>
      simp [List.dropWhile_cons, hc, ih]

/-- Sign parsing distributes over appending a comma-started tail. -/
theorem parseSign_append (s r : List Char) :
    parseSign (s ++ ',' :: r) = ((parseSign s).1, (parseSign s).2 ++ ',' :: r) := by
  cases s with
  | nil => rfl
  | cons c cs =>
    by_cases h1 : c = '+'
    · simp [parseSign, h1]
    · by_cases h2 : c = '-' <;> simp [parseSign, h1, h2]

/-- A failing mantissa parse still fails after appending a comma-started
tail: the comma cannot begin or extend a mantissa. -/
theorem parseMantissa_append (s r : List Char)
    (h : parseMantissa s = none) : parseMantissa (s ++ ',' :: r) = none := by
  cases s with
  | nil => rfl
  | cons c cs =>
    by_cases hd : Char.isDigit c
    · exfalso
      rw [parseMantissa] at h
      simp only [List.takeWhile_cons, List.dropWhile_cons, hd, if_true] at h
      rcases hrest : List.dropWhile Char.isDigit cs with _ | ⟨c2, r2⟩ <;>
        rw [hrest] at h <;> simp at h
      split at h <;> simp at h
    · by_cases hdot : c = '.'
      · subst hdot
        rw [parseMantissa] at h
        simp only [List.takeWhile_cons, List.dropWhile_cons, hd] at h
        have hfp : cs.takeWhile Char.isDigit = [] := by
          by_contra hfp
          simp [hfp] at h
        rw [List.cons_append, parseMantissa]
        simp only [List.takeWhile_cons, List.dropWhile_cons, hd]
        have hfp2 : (cs ++ ',' :: r).takeWhile Char.isDigit = [] := by
          cases cs with
          | nil => rfl
          | cons c2 cs2 =>
            rw [List.takeWhile_cons] at hfp
            rw [List.cons_append, List.takeWhile_cons]
            by_cases h2 : Char.isDigit c2
            · simp [h2] at hfp
            · simp [h2]
        simp [hfp2]
      · rw [List.cons_append, parseMantissa]
        simp [List.takeWhile_cons, List.dropWhile_cons, hd, hdot]

/-- A failing `strtof` conversion still fails after appending a
comma-started tail. -/
theorem strtofParse_append (t r : List Char) (h : strtofParse t = none) :
    strtofParse (t ++ ',' :: r) = none := by
  rw [strtofParse] at h ⊢
  rw [dropWhile_space_append, parseSign_append]
  cases hm : parseMantissa (parseSign (t.dropWhile isSpaceC)).2 with
  | none => rw [parseMantissa_append _ _ hm]
  | some v => rw [hm] at h; simp at h

/-- One-step unfolding of `splitString` on a cons cell. -/
theorem splitString_cons_eq (c : Char) (cs : List Char) :
    splitString (c :: cs) =
      if c = ',' then [] :: splitString cs
      else
        match splitString cs with
        | [] => [[c]]
        | t :: ts => (c :: t) :: ts := rfl

/-- `SplitString`'s first token: a nonempty string splits into a head
token that is either the whole string or its prefix up to the first
comma. -/
theorem splitString_cons (c : Char) (cs : List Char) :
    ∃ t ts, splitString (c :: cs) = t :: ts ∧
      (c :: cs = t ∨ ∃ r, c :: cs = t ++ ',' :: r) := by
  induction cs generalizing c with
  | nil =>
    by_cases hc : c = ','
    · subst hc
      exact ⟨[], [], by simp [splitString], Or.inr ⟨[], rfl⟩⟩
    · exact ⟨[c], [], by simp [splitString, hc], Or.inl rfl⟩
  | cons c2 cs2 ih =>
    by_cases hc : c = ','
    · subst hc
      exact ⟨[], splitString (c2 :: cs2), by simp [splitString],
        Or.inr ⟨c2 :: cs2, rfl⟩⟩
    · obtain ⟨t, ts, h1, h2⟩ := ih c2
      refine ⟨c :: t, ts, by rw [splitString_cons_eq, if_neg hc, h1], ?_⟩
      rcases h2 with h | ⟨r, h⟩
      · exact Or.inl (by rw [h])
      · exact Or.inr ⟨r, by rw [h]; rfl⟩

/-- When no comma-separated token of a string parses, the whole string
does not parse as a scalar either. -/
theorem stringToFloat_none_of_tokens (v : List Char)
    (h : parsedTokens v = []) : stringToFloat v = none := by
  cases v with
  | nil => rfl
  | cons c cs =>
    obtain ⟨t, ts, hsplit, hdec⟩ := splitString_cons c cs
    have ht : stringToFloat t = none := by
      unfold parsedTokens at h
      rw [hsplit] at h
      cases hf : stringToFloat t with
      | none => rfl
      | some x => rw [List.filterMap_cons, hf] at h; simp at h
    have htp : strtofParse t = none := by
      unfold stringToFloat at ht
      exact Option.map_eq_none.mp ht
    rcases hdec with h1 | ⟨r, h2⟩
    · rw [h1]; exact ht
    · rw [h2]
      unfold stringToFloat
      rw [strtofParse_append t r htp]
      rfl

/-- A fully malformed value gives the scalar reader its default, exactly
as the empty (absent) value does. -/
theorem getPropertyScalar_malformed (v : List Char)
    (h : parsedTokens v = []) (d : ℚ) : getPropertyScalar v d = d := by
  simp [getPropertyScalar, stringToFloat_none_of_tokens v h]

/-- A fully malformed value gives the vector reader its default, exactly
as the empty (absent) value does. -/
theorem getPropertyVec_malformed (v : List Char)
    (h : parsedTokens v = []) (d : List ℚ) : getPropertyVec v d = d := by
  rw [getPropertyVec_eq, if_pos h]

/-- Two property stores that agree through both property readers give
identical results from every factory of this translation unit. -/
theorem factories_ext (e1 e2 : Env)
    (hs : ∀ (k : PropKey) (d : ℚ),
      getPropertyScalar (e1 k) d = getPropertyScalar (e2 k) d)
    (hv : ∀ (k : PropKey) (d : List ℚ),
      getPropertyVec (e1 k) d = getPropertyVec (e2 k) d) :
    (∀ l_fov r_fov, createHeadMountMetrics e1 l_fov r_fov =
      createHeadMountMetrics e2 l_fov r_fov) ∧
    createHeadMountMetricsAuto e1 = createHeadMountMetricsAuto e2 ∧
    (∀ l_fov r_fov, createUndistortedHeadMountMetrics e1 l_fov r_fov =
      createUndistortedHeadMountMetrics e2 l_fov r_fov) ∧
    createUndistortedHeadMountMetricsAuto e1 =
      createUndistortedHeadMountMetricsAuto e2 ∧
    ∀ p, createDisplayMetrics e1 p = createDisplayMetrics e2 p := by
  have hils : getInterLensDistance e1 = getInterLensDistance e2 := hs _ _
  have hgap : getDisplayGap e1 = getDisplayGap e2 := hs _ _
  have heye : getVEyeToDisplay e1 = getVEyeToDisplay e2 := hs _ _
  have hfov : getMaxFOVs e1 = getMaxFOVs e2 := by
    unfold getMaxFOVs; rw [hv]
  have hoff : selectPolyOffsets e1 = selectPolyOffsets e2 := by
    unfold selectPolyOffsets; rw [hv]
  have hsize : getDisplaySize e1 = getDisplaySize e2 := by
    rw [getDisplaySize_eq, getDisplaySize_eq]
  have h2arg : ∀ l_fov r_fov, createHeadMountMetrics e1 l_fov r_fov =
      createHeadMountMetrics e2 l_fov r_fov := by
    intro l_fov r_fov
    simp only [createHeadMountMetrics, hoff, hv, hils, hgap, heye]
  have hund2 : ∀ l_fov r_fov, createUndistortedHeadMountMetrics e1 l_fov r_fov =
      createUndistortedHeadMountMetrics e2 l_fov r_fov := by
    intro l_fov r_fov
    simp only [createUndistortedHeadMountMetrics, hils, hgap, heye]
  refine ⟨h2arg, ?_, hund2, ?_, ?_⟩
  · simp only [createHeadMountMetricsAuto, hfov, h2arg]
  · simp only [createUndistortedHeadMountMetricsAuto, hfov, hund2]
  · intro p
    simp only [createDisplayMetrics, hsize]

/-- C10: a fully malformed property value (one from which no token
parses) is indistinguishable from an absent value: every factory
returns exactly the same result in both cases, with no error signalled
(all operations are total functions that degrade to compiled-in
defaults). -/
theorem claim_C10 (env : Env) (k : PropKey) (v : List Char)
    (hmal : parsedTokens v = []) :
    (∀ l_fov r_fov, createHeadMountMetrics (envUpdate env k v) l_fov r_fov =
      createHeadMountMetrics (envUpdate env k []) l_fov r_fov) ∧
    createHeadMountMetricsAuto (envUpdate env k v) =
      createHeadMountMetricsAuto (envUpdate env k []) ∧
    (∀ l_fov r_fov,
      createUndistortedHeadMountMetrics (envUpdate env k v) l_fov r_fov =
        createUndistortedHeadMountMetrics (envUpdate env k []) l_fov r_fov) ∧
    createUndistortedHeadMountMetricsAuto (envUpdate env k v) =
      createUndistortedHeadMountMetricsAuto (envUpdate env k []) ∧
    ∀ p, createDisplayMetrics (envUpdate env k v) p =
      createDisplayMetrics (envUpdate env k []) p := by
  apply factories_ext
  · intro k2 d
    unfold envUpdate
    by_cases h : k2 = k
    · rw [if_pos h, if_pos h, getPropertyScalar_malformed v hmal]
      rfl
    · rw [if_neg h, if_neg h]
  · intro k2 d
    unfold envUpdate
    by_cases h : k2 = k
    · rw [if_pos h, if_pos h, getPropertyVec_malformed v hmal]
      rfl
    · rw [if_neg h, if_neg h]

unseal Rat.add Rat.mul Rat.inv Rat.sub Rat.ofScientific in
/-- C10 (witness): setting the lens-distance property to the fully
malformed value "abc" produces the same head-mount metrics as leaving
it unset. -/
theorem claim_C10_witness :
    parsedTokens "abc".toList = [] ∧
    createHeadMountMetricsAuto
        (envUpdate emptyEnv .lensDistance "abc".toList) =
      createHeadMountMetricsAuto (envUpdate emptyEnv .lensDistance []) :=
  ⟨by decide,
   (claim_C10 emptyEnv .lensDistance "abc".toList (by decide)).2.1⟩
